import Mathlib

/-!
Verification of the client subscription-loop example
(`examples/client_subscription_loop_complete_data_change.c`).

The C file is shallowly embedded: the two mutable globals become an explicit
`ProgState`, each callback becomes a pure function from state to state plus a
trace of emitted actions (log lines and library calls), and the endless loop in
`main` becomes a fuel-indexed recursion producing the trace of one run.
Library facilities that live outside the example file (variant inspection,
`UA_DateTime_toStruct`, the default request constructors, the library-side
subscription bookkeeping) are modelled from the specification and marked as
such in their doc comments.
-/

set_option linter.unusedVariables false

namespace UAClient

/-- Status codes are 32-bit unsigned integers; the example only ever compares
them with `UA_STATUSCODE_GOOD`. -/
abbrev UA_StatusCode := Nat

/-- The good status code, numerically zero. -/
def UA_STATUSCODE_GOOD : UA_StatusCode := 0

/-- The two mutable globals of the example: `running` (line 23) and
`currentTimeClientHandle` (line 24). -/
structure ProgState where
  running : Bool
  currentTimeClientHandle : Nat
  deriving DecidableEq

/-- Initial values of the globals: `running = true`,
`currentTimeClientHandle = 42`. -/
def initialProgState : ProgState :=
  { running := true, currentTimeClientHandle := 42 }

/-- Modelled from the spec: the calendar decomposition produced by
`UA_DateTime_toStruct` (day, month, year, hour, minute, second, millisecond);
the library function is not under `src/`. -/
structure UA_DateTimeStruct where
  milliSec : Int
  sec : Int
  min : Int
  hour : Int
  day : Int
  month : Int
  year : Int
  deriving DecidableEq

/-- Modelled from the spec: `UA_DateTime_toStruct` decomposes a DateTime value
(a count of 100 ns ticks since 1601-01-01T00:00:00Z) into calendar fields.
The claims use only that the formatted output is derived from the raw value
through this function; the calendar conversion follows the proleptic Gregorian
calendar (11644473600 is the number of seconds between 1601 and the Unix
epoch). -/
def UA_DateTime_toStruct (t : Int) : UA_DateTimeStruct :=
  let unixSec : Int := t.ediv 10000000 - 11644473600
  let days : Int := unixSec.ediv 86400
  let secOfDay : Int := unixSec.emod 86400
  let z : Int := days + 719468
  let era : Int := z.ediv 146097
  let doe : Int := z - era * 146097
  let yoe : Int := (doe - doe.ediv 1460 + doe.ediv 36524 - doe.ediv 146096).ediv 365
  let y : Int := yoe + era * 400
  let doy : Int := doe - (365 * yoe + yoe.ediv 4 - yoe.ediv 100)
  let mp : Int := (5 * doy + 2).ediv 153
  let d : Int := doy - (153 * mp + 2).ediv 5 + 1
  let m : Int := if mp < 10 then mp + 3 else mp - 9
  { milliSec := (t.ediv 10000).emod 1000
    sec := secOfDay.emod 60
    min := (secOfDay.ediv 60).emod 60
    hour := secOfDay.ediv 3600
    day := d
    month := m
    year := if m ≤ 2 then y + 1 else y }

/-- Index of the DateTime entry in the `UA_TYPES` type table (library
constant; only its identity matters here). -/
def UA_TYPES_DATETIME : Nat := 12

/-- Modelled from the spec: a `UA_Variant` as far as the example inspects it —
whether it holds a scalar, which `UA_TYPES` entry describes it, and the payload
reinterpreted as a DateTime (Int64) when applicable. (`UA_Variant` and
`UA_Variant_hasScalarType` live in the library, not under `src/`.) -/
structure UAVariant where
  isScalar : Bool
  typeIndex : Nat
  data : Int
  deriving DecidableEq

/-- Modelled from the spec: `UA_Variant_hasScalarType` checks that the variant
holds a scalar of the given type. -/
def UA_Variant_hasScalarType (v : UAVariant) (typeIndex : Nat) : Bool :=
  v.isScalar && v.typeIndex == typeIndex

/-- A data value as inspected by the handler (only the variant is read). -/
structure UADataValue where
  value : UAVariant
  deriving DecidableEq

/-- One element of a notification batch: the echoed client handle and the
sampled value. -/
structure UA_MonitoredItemNotification where
  clientHandle : Nat
  value : UADataValue
  deriving DecidableEq

/-- A notification batch, in the order delivered by the transport. -/
structure UA_DataChangeNotification where
  monitoredItems : List UA_MonitoredItemNotification
  deriving DecidableEq

/-- One log emission; one constructor per distinct message of the source
file. -/
inductive LogEvent where
  | receivedCtrlC
  | currentTimeChanged
  | dateIs (dts : UA_DateTimeStruct)
  | subscriptionDeleted (subscriptionId : Nat)
  | inactivityForSubscription (subId : Nat)
  | clientDisconnected
  | waitingForAck
  | waitingForOPNResponse
  | secureChannelOpen
  | sessionActivated
  | createSubscriptionSucceeded (subscriptionId : Nat)
  | monitoringCurrentTime (monitoredItemId : Nat)
  | sessionDisconnected
  | notConnectedRetrying
  deriving DecidableEq

/-- Per-element effect of the dispatch loop body (source lines 36-48): the log
events emitted for one batch element, given the current globals. -/
def elemEvents (s : ProgState) (m : UA_MonitoredItemNotification) : List LogEvent :=
  if m.clientHandle = s.currentTimeClientHandle then
    LogEvent.currentTimeChanged ::
      (if UA_Variant_hasScalarType m.value.value UA_TYPES_DATETIME then
        [LogEvent.dateIs (UA_DateTime_toStruct m.value.value.data)]
      else [])
  else []

/-- The dispatch loop of `handler_currentTimeChanged` (source lines 33-49),
translated as structural recursion over the remaining suffix of the batch. -/
def handlerLoop (s : ProgState) : List UA_MonitoredItemNotification → List LogEvent
  | [] => []
  | m :: rest =>
    (if m.clientHandle = s.currentTimeClientHandle then
      LogEvent.currentTimeChanged ::
        (if UA_Variant_hasScalarType m.value.value UA_TYPES_DATETIME then
          [LogEvent.dateIs (UA_DateTime_toStruct m.value.value.data)]
        else [])
    else []) ++ handlerLoop s rest

/-- The batched data-change handler `handler_currentTimeChanged` (source lines
31-50): it reads the globals, mutates nothing, and emits log events only. -/
def handler_currentTimeChanged (s : ProgState) (subId : Nat)
    (n : UA_DataChangeNotification) : ProgState × List LogEvent :=
  (s, handlerLoop s n.monitoredItems)

/-- Recogniser for the `currentTime has changed` log line. -/
def isCurrentTimeChangedEvent : LogEvent → Bool
  | LogEvent.currentTimeChanged => true
  | _ => false

/-- Number of `currentTime has changed` log lines in a trace. -/
def countCurrentTimeChanged (evs : List LogEvent) : Nat :=
  evs.countP isCurrentTimeChangedEvent

/-- The date structures carried by the `date is` log lines of a trace, in
order. -/
def dateEvents (evs : List LogEvent) : List UA_DateTimeStruct :=
  evs.filterMap fun e =>
    match e with
    | LogEvent.dateIs d => some d
    | _ => none

/-- A batch element whose handle matches the registered handle and whose value
is a scalar DateTime. -/
def isRegisteredDateTimeElem (s : ProgState) (m : UA_MonitoredItemNotification) : Bool :=
  (m.clientHandle == s.currentTimeClientHandle) &&
    UA_Variant_hasScalarType m.value.value UA_TYPES_DATETIME

theorem handlerLoop_eq_flatMap (s : ProgState) (items : List UA_MonitoredItemNotification) :
    handlerLoop s items = items.flatMap (elemEvents s) := by
  induction items with
  | nil => rfl
  | cons m rest ih => simp [handlerLoop, List.flatMap_cons, elemEvents, ih]

theorem countCTC_elemEvents (s : ProgState) (m : UA_MonitoredItemNotification) :
    countCurrentTimeChanged (elemEvents s m) =
      if m.clientHandle = s.currentTimeClientHandle then 1 else 0 := by
  by_cases h : m.clientHandle = s.currentTimeClientHandle
  · by_cases h2 : UA_Variant_hasScalarType m.value.value UA_TYPES_DATETIME <;>
      simp [elemEvents, countCurrentTimeChanged, h, h2, List.countP_cons,
        isCurrentTimeChangedEvent]
  · simp [elemEvents, countCurrentTimeChanged, h]

theorem countCTC_handlerLoop (s : ProgState) (items : List UA_MonitoredItemNotification) :
    countCurrentTimeChanged (handlerLoop s items) =
      (items.filter fun m => m.clientHandle == s.currentTimeClientHandle).length := by
  induction items with
  | nil => rfl
  | cons m rest ih =>
    have he := countCTC_elemEvents s m
    rw [handlerLoop]
    show countCurrentTimeChanged (elemEvents s m ++ handlerLoop s rest) = _
    simp only [countCurrentTimeChanged] at he ih ⊢
    rw [List.countP_append, he, ih, List.filter_cons]
    by_cases h : m.clientHandle = s.currentTimeClientHandle <;> simp [h] <;> omega

theorem dateEvents_append (a b : List LogEvent) :
    dateEvents (a ++ b) = dateEvents a ++ dateEvents b := by
  simp [dateEvents, List.filterMap_append]

theorem dateEvents_handlerLoop (s : ProgState) (items : List UA_MonitoredItemNotification) :
    dateEvents (handlerLoop s items) =
      (items.filter (isRegisteredDateTimeElem s)).map
        (fun m => UA_DateTime_toStruct m.value.value.data) := by
  induction items with
  | nil => rfl
  | cons m rest ih =>
    rw [handlerLoop, dateEvents_append, ih]
    by_cases h : m.clientHandle = s.currentTimeClientHandle
    · by_cases h2 : UA_Variant_hasScalarType m.value.value UA_TYPES_DATETIME <;>
        simp [h, h2, dateEvents, List.filter_cons, isRegisteredDateTimeElem]
    · simp [h, dateEvents, List.filter_cons, isRegisteredDateTimeElem]

/-- C1: dispatching a notification batch leaves the program state unchanged,
visits the batch elements in exactly the transport-delivered order (the trace
is the in-order concatenation of the per-element effects), performs the
registered handling exactly once per element whose clientHandle equals the
registered handle, and emits nothing at all for an element with an
unregistered clientHandle. -/
theorem dispatch_order_once_and_skip (s : ProgState) (subId : Nat)
    (n : UA_DataChangeNotification) :
    (handler_currentTimeChanged s subId n).1 = s ∧
    (handler_currentTimeChanged s subId n).2 = n.monitoredItems.flatMap (elemEvents s) ∧
    countCurrentTimeChanged (handler_currentTimeChanged s subId n).2 =
      (n.monitoredItems.filter fun m => m.clientHandle == s.currentTimeClientHandle).length ∧
    (∀ m, m.clientHandle ≠ s.currentTimeClientHandle → elemEvents s m = []) := by
  refine ⟨rfl, handlerLoop_eq_flatMap s n.monitoredItems, countCTC_handlerLoop s n.monitoredItems, ?_⟩
  intro m hm
  simp [elemEvents, hm]

/-- Concrete batch used to witness the dispatch claims: one element with the
registered handle 42 carrying a scalar DateTime, one element with the
unregistered handle 7. -/
def witnessBatch : UA_DataChangeNotification :=
  { monitoredItems :=
      [ { clientHandle := 42,
          value := { value := { isScalar := true, typeIndex := 12, data := 0 } } },
        { clientHandle := 7,
          value := { value := { isScalar := true, typeIndex := 12, data := 0 } } } ] }

/-- Unregistered-handle element used in the witnesses. -/
def strayElem : UA_MonitoredItemNotification :=
  { clientHandle := 7,
    value := { value := { isScalar := true, typeIndex := 12, data := 0 } } }

theorem dispatch_order_once_and_skip_witness :
    elemEvents initialProgState strayElem = [] ∧
    countCurrentTimeChanged (handler_currentTimeChanged initialProgState 1 witnessBatch).2 = 1 := by
  have h := dispatch_order_once_and_skip initialProgState 1 witnessBatch
  exact ⟨h.2.2.2 strayElem (by decide), h.2.2.1.trans (by decide)⟩

/-- C6: for every batch element whose clientHandle equals the registered handle
and whose value is a scalar DateTime, the handler emits exactly one formatted
date, obtained from the raw value through `UA_DateTime_toStruct`, and these
date emissions appear once per such element in batch order. -/
theorem formatted_date_per_datetime_element (s : ProgState) (subId : Nat)
    (n : UA_DataChangeNotification) :
    dateEvents (handler_currentTimeChanged s subId n).2 =
      (n.monitoredItems.filter (isRegisteredDateTimeElem s)).map
        (fun m => UA_DateTime_toStruct m.value.value.data) :=
  dateEvents_handlerLoop s n.monitoredItems

/-- C8: a batch element whose clientHandle equals the registered handle but
whose value is not a scalar DateTime yields exactly one changed-report log
line, no formatted date, and no other effect; the state is unchanged and the
report does appear in the batch trace. -/
theorem matched_non_datetime_reports_once (s : ProgState) (subId : Nat)
    (n : UA_DataChangeNotification) (m : UA_MonitoredItemNotification)
    (hm : m ∈ n.monitoredItems)
    (h1 : m.clientHandle = s.currentTimeClientHandle)
    (h2 : UA_Variant_hasScalarType m.value.value UA_TYPES_DATETIME = false) :
    elemEvents s m = [LogEvent.currentTimeChanged] ∧
    dateEvents (elemEvents s m) = [] ∧
    (handler_currentTimeChanged s subId n).1 = s ∧
    LogEvent.currentTimeChanged ∈ (handler_currentTimeChanged s subId n).2 := by
  have he : elemEvents s m = [LogEvent.currentTimeChanged] := by
    simp [elemEvents, h1, h2]
  refine ⟨he, by simp [he, dateEvents], rfl, ?_⟩
  have hb : (handler_currentTimeChanged s subId n).2 = n.monitoredItems.flatMap (elemEvents s) :=
    handlerLoop_eq_flatMap s n.monitoredItems
  rw [hb]
  exact List.mem_flatMap.mpr ⟨m, hm, by simp [he]⟩

/-- Matched element carrying a non-DateTime scalar, used in the C8 witness. -/
def matchedBoolElem : UA_MonitoredItemNotification :=
  { clientHandle := 42,
    value := { value := { isScalar := true, typeIndex := 0, data := 0 } } }

/-- Batch containing only `matchedBoolElem`, used in the C8 witness. -/
def boolBatch : UA_DataChangeNotification :=
  { monitoredItems := [matchedBoolElem] }

theorem matched_non_datetime_reports_once_witness :
    elemEvents initialProgState matchedBoolElem = [LogEvent.currentTimeChanged] ∧
    dateEvents (elemEvents initialProgState matchedBoolElem) = [] ∧
    (handler_currentTimeChanged initialProgState 1 boolBatch).1 = initialProgState ∧
    LogEvent.currentTimeChanged ∈ (handler_currentTimeChanged initialProgState 1 boolBatch).2 :=
  matched_non_datetime_reports_once initialProgState 1 boolBatch matchedBoolElem
    (by decide) (by decide) (by decide)

/-- Secure-channel states distinguished by the example's stateCallback
switch. -/
inductive UA_SecureChannelState where
  | closed
  | helSent
  | helReceived
  | ackSent
  | ackReceived
  | opnSent
  | openChan
  | closing
  deriving DecidableEq

/-- Session states of the client library. -/
inductive UA_SessionState where
  | closed
  | createRequested
  | created
  | activateRequested
  | activated
  | closing
  deriving DecidableEq

/-- Response header carrying the service-level status of a response. -/
structure UA_ResponseHeader where
  serviceResult : UA_StatusCode
  deriving DecidableEq

/-- Modelled from the spec: the default subscription parameters (publishing
interval, lifetime count, max keep-alive count, max notifications per publish)
produced by `UA_CreateSubscriptionRequest_default` (library, not under
`src/`). The double-valued publishing interval is represented by its integral
number of milliseconds. -/
structure UA_CreateSubscriptionRequest where
  requestedPublishingInterval : Int
  requestedLifetimeCount : Nat
  requestedMaxKeepAliveCount : Nat
  maxNotificationsPerPublish : Nat
  publishingEnabled : Bool
  priority : Nat
  deriving DecidableEq

/-- Modelled from the spec: default subscription request of the library. -/
def UA_CreateSubscriptionRequest_default : UA_CreateSubscriptionRequest :=
  { requestedPublishingInterval := 500
    requestedLifetimeCount := 10000
    requestedMaxKeepAliveCount := 10
    maxNotificationsPerPublish := 0
    publishingEnabled := true
    priority := 0 }

/-- Response of the subscription-creation service, as far as the example
reads it. -/
structure UA_CreateSubscriptionResponse where
  responseHeader : UA_ResponseHeader
  subscriptionId : Nat
  deriving DecidableEq

/-- Numeric node identifier (only numeric ids occur in the example). -/
structure UA_NodeId where
  namespaceIndex : Nat
  identifier : Nat
  deriving DecidableEq

/-- Constructor for a numeric node id, as the C macro does. -/
def UA_NODEID_NUMERIC (nsIndex : Nat) (identifier : Nat) : UA_NodeId :=
  { namespaceIndex := nsIndex, identifier := identifier }

/-- Numeric id of Server_ServerStatus_CurrentTime in namespace 0 (library
constant). -/
def UA_NS0ID_SERVER_SERVERSTATUS_CURRENTTIME : Nat := 2258

/-- The node monitored by the example (source lines 99-100). -/
def currentTimeNode : UA_NodeId :=
  UA_NODEID_NUMERIC 0 UA_NS0ID_SERVER_SERVERSTATUS_CURRENTTIME

/-- Requested monitoring parameters; the clientHandle field is the correlation
handle echoed back in notifications. -/
structure UA_MonitoringParameters where
  clientHandle : Nat
  samplingInterval : Int
  discardOldest : Bool
  queueSize : Nat
  deriving DecidableEq

/-- A monitored-item creation request as the example builds it. -/
structure UA_MonitoredItemCreateRequest where
  itemToMonitor : UA_NodeId
  requestedParameters : UA_MonitoringParameters
  deriving DecidableEq

/-- Modelled from the spec: default monitored-item parameters (sampling
interval, queue size, discard-oldest policy) produced by
`UA_MonitoredItemCreateRequest_default` (library, not under `src/`); the
clientHandle field starts out zeroed. -/
def UA_MonitoredItemCreateRequest_default (nodeId : UA_NodeId) : UA_MonitoredItemCreateRequest :=
  { itemToMonitor := nodeId
    requestedParameters :=
      { clientHandle := 0, samplingInterval := 250, discardOldest := true, queueSize := 1 } }

/-- Result of the monitored-item creation service, as far as the example
reads it. -/
structure UA_MonitoredItemCreateResult where
  statusCode : UA_StatusCode
  monitoredItemId : Nat
  deriving DecidableEq

/-- Which timestamps the server is asked to return. -/
inductive UA_TimestampsToReturn where
  | source
  | server
  | both
  | neither
  deriving DecidableEq

/-- Responses the client library returns for the two service calls issued by
stateCallback; quantifying over this oracle quantifies over all server and
library behaviours. -/
structure LibOracle where
  createCompleteDataChange : UA_CreateSubscriptionRequest → UA_CreateSubscriptionResponse
  createDataChange : Nat → UA_TimestampsToReturn → UA_MonitoredItemCreateRequest →
    UA_MonitoredItemCreateResult

/-- Externally visible actions of the example: log lines, library service
calls, loop primitives and the final client release. -/
inductive Action where
  | log (e : LogEvent)
  | connectTo (url : String)
  | sleepMs (ms : Nat)
  | runIterate (timeoutMs : Nat)
  | createSubscription (request : UA_CreateSubscriptionRequest)
  | createDataChange (subscriptionId : Nat) (ts : UA_TimestampsToReturn)
      (request : UA_MonitoredItemCreateRequest)
  | deleteClient
  deriving DecidableEq

/-- Log lines of the channel-state switch in stateCallback (source lines
66-81). -/
def channelStateActions : UA_SecureChannelState → List Action
  | UA_SecureChannelState.closed => [Action.log LogEvent.clientDisconnected]
  | UA_SecureChannelState.helSent => [Action.log LogEvent.waitingForAck]
  | UA_SecureChannelState.opnSent => [Action.log LogEvent.waitingForOPNResponse]
  | UA_SecureChannelState.openChan => [Action.log LogEvent.secureChannelOpen]
  | _ => []

/-- Actions of the `UA_SESSIONSTATE_ACTIVATED` branch of stateCallback (source
lines 84-114): create the subscription; on failure return at once; on success
build the monitored-item request, overwrite its clientHandle with the global
handle, issue the creation call, and log the outcome on success only. -/
def sessionActivatedActions (s : ProgState) (lib : LibOracle) : List Action :=
  let request := UA_CreateSubscriptionRequest_default
  let response := lib.createCompleteDataChange request
  Action.log LogEvent.sessionActivated :: Action.createSubscription request ::
    (if response.responseHeader.serviceResult = UA_STATUSCODE_GOOD then
      Action.log (LogEvent.createSubscriptionSucceeded response.subscriptionId) ::
        (let monRequest0 := UA_MonitoredItemCreateRequest_default currentTimeNode
         let monRequest : UA_MonitoredItemCreateRequest :=
           { monRequest0 with
              requestedParameters :=
                { monRequest0.requestedParameters with
                   clientHandle := s.currentTimeClientHandle } }
         let monResponse :=
           lib.createDataChange response.subscriptionId UA_TimestampsToReturn.both monRequest
         Action.createDataChange response.subscriptionId UA_TimestampsToReturn.both monRequest ::
           (if monResponse.statusCode = UA_STATUSCODE_GOOD then
             [Action.log (LogEvent.monitoringCurrentTime monResponse.monitoredItemId)]
           else []))
    else [])

/-- Actions of the session-state switch in stateCallback (source lines
83-121). -/
def sessionStateActions (s : ProgState) (lib : LibOracle) : UA_SessionState → List Action
  | UA_SessionState.activated => sessionActivatedActions s lib
  | UA_SessionState.closed => [Action.log LogEvent.sessionDisconnected]
  | _ => []

/-- The client state callback `stateCallback` (source lines 63-122): logs the
channel state, then dispatches on the session state. It never mutates the
globals. -/
def stateCallback (s : ProgState) (lib : LibOracle)
    (channelState : UA_SecureChannelState) (sessionState : UA_SessionState)
    (recoveryStatus : UA_StatusCode) : ProgState × List Action :=
  (s, channelStateActions channelState ++ sessionStateActions s lib sessionState)

/-- The monitored-item creation requests carried by the service-call actions
of a trace, in order. -/
def createDataChangeRequests (tr : List Action) : List UA_MonitoredItemCreateRequest :=
  tr.filterMap fun a =>
    match a with
    | Action.createDataChange _ _ req => some req
    | _ => none

/-- Recogniser for subscription-creation service calls. -/
def isCreateSubscriptionAct : Action → Bool
  | Action.createSubscription _ => true
  | _ => false

/-- Recogniser for monitored-item creation service calls. -/
def isCreateDataChangeAct : Action → Bool
  | Action.createDataChange _ _ _ => true
  | _ => false

/-- Recogniser for the client-release action. -/
def isDeleteClientAct : Action → Bool
  | Action.deleteClient => true
  | _ => false

/-- Actions a trace performs strictly after its first subscription-creation
call. -/
def actionsAfterCreateSubscription (tr : List Action) : List Action :=
  (tr.dropWhile fun a => !isCreateSubscriptionAct a).drop 1

theorem channelStateActions_only_logs (ch : UA_SecureChannelState) :
    createDataChangeRequests (channelStateActions ch) = [] ∧
    (channelStateActions ch).countP isCreateSubscriptionAct = 0 ∧
    (channelStateActions ch).countP isCreateDataChangeAct = 0 ∧
    (channelStateActions ch).countP isDeleteClientAct = 0 := by
  cases ch <;> exact ⟨rfl, rfl, rfl, rfl⟩

theorem createDataChangeRequests_append (a b : List Action) :
    createDataChangeRequests (a ++ b) =
      createDataChangeRequests a ++ createDataChangeRequests b := by
  simp [createDataChangeRequests]

/-- C2: every monitored-item creation request that stateCallback passes to
`UA_Client_MonitoredItems_createDataChange` already carries the application's
registered handle in `requestedParameters.clientHandle`; the handle is set in
the request before the call is issued. -/
theorem clientHandle_set_before_send (s : ProgState) (lib : LibOracle)
    (ch : UA_SecureChannelState) (ss : UA_SessionState) (rs : UA_StatusCode)
    (req : UA_MonitoredItemCreateRequest)
    (hreq : req ∈ createDataChangeRequests (stateCallback s lib ch ss rs).2) :
    req.requestedParameters.clientHandle = s.currentTimeClientHandle := by
  simp only [stateCallback] at hreq
  rw [createDataChangeRequests_append, (channelStateActions_only_logs ch).1,
    List.nil_append] at hreq
  cases ss <;> simp only [sessionStateActions] at hreq
  case activated =>
    simp only [sessionActivatedActions] at hreq
    by_cases hgood : (lib.createCompleteDataChange
        UA_CreateSubscriptionRequest_default).responseHeader.serviceResult = UA_STATUSCODE_GOOD
    · simp only [hgood] at hreq
      by_cases hmon : (lib.createDataChange
            (lib.createCompleteDataChange UA_CreateSubscriptionRequest_default).subscriptionId
            UA_TimestampsToReturn.both
            { UA_MonitoredItemCreateRequest_default currentTimeNode with
               requestedParameters :=
                 { (UA_MonitoredItemCreateRequest_default currentTimeNode).requestedParameters with
                    clientHandle := s.currentTimeClientHandle } }).statusCode =
          UA_STATUSCODE_GOOD <;>
        simp [hmon, createDataChangeRequests] at hreq <;>
        rw [hreq]
    · simp [hgood, createDataChangeRequests] at hreq
  all_goals simp [createDataChangeRequests] at hreq

/-- Library oracle answering both service calls with success, used in
witnesses. -/
def goodLib : LibOracle :=
  { createCompleteDataChange := fun _ =>
      { responseHeader := { serviceResult := UA_STATUSCODE_GOOD }, subscriptionId := 7 }
    createDataChange := fun _ _ _ =>
      { statusCode := UA_STATUSCODE_GOOD, monitoredItemId := 3 } }

/-- The monitored-item request as the example sends it with the initial
globals: default parameters with the clientHandle overwritten to 42. -/
def sentMonRequest : UA_MonitoredItemCreateRequest :=
  { itemToMonitor := currentTimeNode
    requestedParameters :=
      { clientHandle := 42, samplingInterval := 250, discardOldest := true, queueSize := 1 } }

theorem clientHandle_set_before_send_witness :
    sentMonRequest.requestedParameters.clientHandle =
      initialProgState.currentTimeClientHandle :=
  clientHandle_set_before_send initialProgState goodLib UA_SecureChannelState.openChan
    UA_SessionState.activated 0 sentMonRequest (by decide)

/-- The monitored-item request built by the Activated branch: the library
default with the clientHandle overwritten by the registered global handle. -/
def monRequestWithHandle (s : ProgState) : UA_MonitoredItemCreateRequest :=
  { UA_MonitoredItemCreateRequest_default currentTimeNode with
     requestedParameters :=
       { (UA_MonitoredItemCreateRequest_default currentTimeNode).requestedParameters with
          clientHandle := s.currentTimeClientHandle } }

theorem sessionActivatedActions_shape (s : ProgState) (lib : LibOracle) :
    sessionActivatedActions s lib =
      Action.log LogEvent.sessionActivated ::
      Action.createSubscription UA_CreateSubscriptionRequest_default ::
        (if (lib.createCompleteDataChange
              UA_CreateSubscriptionRequest_default).responseHeader.serviceResult =
            UA_STATUSCODE_GOOD then
          Action.log (LogEvent.createSubscriptionSucceeded
              (lib.createCompleteDataChange UA_CreateSubscriptionRequest_default).subscriptionId) ::
          Action.createDataChange
              (lib.createCompleteDataChange UA_CreateSubscriptionRequest_default).subscriptionId
              UA_TimestampsToReturn.both (monRequestWithHandle s) ::
            (if (lib.createDataChange
                  (lib.createCompleteDataChange UA_CreateSubscriptionRequest_default).subscriptionId
                  UA_TimestampsToReturn.both (monRequestWithHandle s)).statusCode =
                UA_STATUSCODE_GOOD then
              [Action.log (LogEvent.monitoringCurrentTime
                  (lib.createDataChange
                    (lib.createCompleteDataChange
                      UA_CreateSubscriptionRequest_default).subscriptionId
                    UA_TimestampsToReturn.both (monRequestWithHandle s)).monitoredItemId)]
            else [])
        else []) := rfl

theorem sessionActivated_counts (s : ProgState) (lib : LibOracle) :
    (sessionActivatedActions s lib).countP isCreateSubscriptionAct = 1 ∧
    (sessionActivatedActions s lib).countP isDeleteClientAct = 0 := by
  rw [sessionActivatedActions_shape]
  by_cases hgood : (lib.createCompleteDataChange
      UA_CreateSubscriptionRequest_default).responseHeader.serviceResult = UA_STATUSCODE_GOOD
  · by_cases hmon : (lib.createDataChange
        (lib.createCompleteDataChange UA_CreateSubscriptionRequest_default).subscriptionId
        UA_TimestampsToReturn.both (monRequestWithHandle s)).statusCode =
          UA_STATUSCODE_GOOD <;>
      simp [hgood, hmon, List.countP_cons, isCreateSubscriptionAct, isDeleteClientAct]
  · simp [hgood, List.countP_cons, isCreateSubscriptionAct, isDeleteClientAct]

theorem sessionActivated_failure (s : ProgState) (lib : LibOracle)
    (hbad : (lib.createCompleteDataChange
        UA_CreateSubscriptionRequest_default).responseHeader.serviceResult ≠
      UA_STATUSCODE_GOOD) :
    actionsAfterCreateSubscription (sessionActivatedActions s lib) = [] ∧
    (sessionActivatedActions s lib).countP isCreateDataChangeAct = 0 := by
  rw [sessionActivatedActions_shape, if_neg hbad]
  exact ⟨rfl, rfl⟩

theorem dropWhile_append_all {α : Type} {p : α → Bool} {a b : List α}
    (h : ∀ x ∈ a, p x = true) :
    (a ++ b).dropWhile p = b.dropWhile p := by
  induction a with
  | nil => rfl
  | cons x xs ih =>
    have hx := h x (List.mem_cons_self x xs)
    simp [List.dropWhile_cons, hx, ih fun y hy => h y (List.mem_cons_of_mem x hy)]

theorem channelStateActions_all_logs (ch : UA_SecureChannelState) :
    ∀ a ∈ channelStateActions ch, ∃ e, a = Action.log e := by
  intro a ha
  cases ch <;> simp [channelStateActions] at ha <;> exact ⟨_, ha⟩

theorem actionsAfter_channel_append (ch : UA_SecureChannelState) (b : List Action) :
    actionsAfterCreateSubscription (channelStateActions ch ++ b) =
      actionsAfterCreateSubscription b := by
  rw [actionsAfterCreateSubscription, actionsAfterCreateSubscription, dropWhile_append_all]
  intro x hx
  obtain ⟨e, he⟩ := channelStateActions_all_logs ch x hx
  rw [he]
  rfl

/-- Library oracle whose two service calls always return the generic bad
status 0x80000000, used for the failure scenarios. -/
def alwaysFailLib : LibOracle :=
  { createCompleteDataChange := fun _ =>
      { responseHeader := { serviceResult := 2147483648 }, subscriptionId := 0 }
    createDataChange := fun _ _ _ =>
      { statusCode := 2147483648, monitoredItemId := 0 } }

/-- C3 counterexample: entering Activated while the subscription-creation
service fails, stateCallback emits exactly the channel log, the activation
log and the creation call, and then nothing at all — no log action follows
the failed call, so the failure is not reported (logged) by the calling
component as the claim states. -/
theorem activation_failure_unreported :
    (stateCallback initialProgState alwaysFailLib UA_SecureChannelState.openChan
        UA_SessionState.activated 0).2 =
      [Action.log LogEvent.secureChannelOpen, Action.log LogEvent.sessionActivated,
        Action.createSubscription UA_CreateSubscriptionRequest_default] ∧
    actionsAfterCreateSubscription
      (stateCallback initialProgState alwaysFailLib UA_SecureChannelState.openChan
        UA_SessionState.activated 0).2 = [] := by
  exact ⟨rfl, rfl⟩

/-- C3 (amended): on every entry into session state Activated the subscription
creation is invoked synchronously and exactly once; the callback neither
releases the client nor mutates the globals; and when subscription creation
returns a non-success status the callback performs no further action after the
failing call — in particular it registers no monitored item in that activation
cycle and emits no further log line (the failure itself is not logged). -/
theorem activation_creates_subscription_and_tolerates_failure
    (s : ProgState) (lib : LibOracle) (ch : UA_SecureChannelState) (rs : UA_StatusCode) :
    (stateCallback s lib ch UA_SessionState.activated rs).2.countP isCreateSubscriptionAct = 1 ∧
    (stateCallback s lib ch UA_SessionState.activated rs).1 = s ∧
    (stateCallback s lib ch UA_SessionState.activated rs).2.countP isDeleteClientAct = 0 ∧
    ((lib.createCompleteDataChange
        UA_CreateSubscriptionRequest_default).responseHeader.serviceResult ≠
      UA_STATUSCODE_GOOD →
      actionsAfterCreateSubscription (stateCallback s lib ch UA_SessionState.activated rs).2 = [] ∧
      (stateCallback s lib ch UA_SessionState.activated rs).2.countP isCreateDataChangeAct = 0) := by
  have hshape : (stateCallback s lib ch UA_SessionState.activated rs).2 =
      channelStateActions ch ++ sessionActivatedActions s lib := rfl
  refine ⟨?_, rfl, ?_, fun hbad => ⟨?_, ?_⟩⟩
  · rw [hshape, List.countP_append, (channelStateActions_only_logs ch).2.1,
      (sessionActivated_counts s lib).1]
  · rw [hshape, List.countP_append, (channelStateActions_only_logs ch).2.2.2,
      (sessionActivated_counts s lib).2]
  · rw [hshape, actionsAfter_channel_append, (sessionActivated_failure s lib hbad).1]
  · rw [hshape, List.countP_append, (channelStateActions_only_logs ch).2.2.1,
      (sessionActivated_failure s lib hbad).2]

theorem activation_tolerates_failure_witness :
    actionsAfterCreateSubscription
        (stateCallback initialProgState alwaysFailLib UA_SecureChannelState.closed
          UA_SessionState.activated 0).2 = [] ∧
    (stateCallback initialProgState alwaysFailLib UA_SecureChannelState.closed
        UA_SessionState.activated 0).2.countP isCreateDataChangeAct = 0 :=
  (activation_creates_subscription_and_tolerates_failure initialProgState alwaysFailLib
    UA_SecureChannelState.closed 0).2.2.2 (by decide)

/-- The endpoint the example connects to (source line 141). -/
def endpointUrl : String := "opc.tcp://localhost:4840"

/-- Exit status returned on clean shutdown (source line 156). -/
def EXIT_SUCCESS : Nat := 0

/-- Environment of one run: the status the transport returns for the k-th
`UA_Client_connect` call. Quantifying over it quantifies over all network
behaviours. -/
structure MainEnv where
  connectResult : Nat → UA_StatusCode

/-- One iteration of the endless loop in main (source lines 137-152): call
connect; on a non-good status log the error, sleep 1000 ms and continue; on
success run one iterate with a 1000 ms timeout. -/
def loopBody (env : MainEnv) (k : Nat) : List Action :=
  Action.connectTo endpointUrl ::
    (if env.connectResult k ≠ UA_STATUSCODE_GOOD then
      [Action.log LogEvent.notConnectedRetrying, Action.sleepMs 1000]
    else
      [Action.runIterate 1000])

/-- The `while(running)` loop. `seq k` is the value of the `running` global at
the k-th loop-top read (its only writer is the asynchronous stop-signal
handler), and `fuel` bounds the number of iterations examined. Returns the
emitted actions and whether the loop exited (true) or the fuel ran out
(false). -/
def runLoop (env : MainEnv) (seq : Nat → Bool) : Nat → Nat → List Action × Bool
  | 0, _ => ([], false)
  | fuel + 1, k =>
    if seq k then
      (loopBody env k ++ (runLoop env seq fuel (k + 1)).1, (runLoop env seq fuel (k + 1)).2)
    else ([], true)

/-- The tail of main (source lines 137-156): run the loop; once it exits,
delete the client — which disconnects it internally — and return
EXIT_SUCCESS. A run that exhausts its fuel has no exit status yet. -/
def mainRun (env : MainEnv) (seq : Nat → Bool) (fuel : Nat) : List Action × Option Nat :=
  if (runLoop env seq fuel 0).2 then
    ((runLoop env seq fuel 0).1 ++ [Action.deleteClient], some EXIT_SUCCESS)
  else ((runLoop env seq fuel 0).1, none)

/-- Recogniser for connect calls. -/
def isConnectAct : Action → Bool
  | Action.connectTo _ => true
  | _ => false

/-- Recogniser for iterate calls. -/
def isRunIterateAct : Action → Bool
  | Action.runIterate _ => true
  | _ => false

/-- Recogniser for sleeps. -/
def isSleepAct : Action → Bool
  | Action.sleepMs _ => true
  | _ => false

theorem loopBody_counts (env : MainEnv) (k : Nat) :
    (loopBody env k).countP isConnectAct = 1 ∧
    (loopBody env k).countP isDeleteClientAct = 0 ∧
    (loopBody env k).countP isSleepAct ≤ 1 ∧
    (loopBody env k).countP isRunIterateAct ≤ 1 := by
  by_cases h : env.connectResult k = UA_STATUSCODE_GOOD <;>
    simp [loopBody, h, List.countP_cons, isConnectAct, isDeleteClientAct, isSleepAct,
      isRunIterateAct]

theorem loopBody_sleeps (env : MainEnv) (k : Nat) (ms : Nat)
    (h : Action.sleepMs ms ∈ loopBody env k) : ms = 1000 := by
  rw [loopBody] at h
  by_cases hc : env.connectResult k = UA_STATUSCODE_GOOD
  · simp [hc] at h
  · simp [hc] at h
    exact h

theorem runLoop_sleeps (env : MainEnv) (seq : Nat → Bool) :
    ∀ fuel k ms, Action.sleepMs ms ∈ (runLoop env seq fuel k).1 → ms = 1000 := by
  intro fuel
  induction fuel with
  | zero => intro k ms h; simp [runLoop] at h
  | succ fuel ih =>
    intro k ms h
    rw [runLoop] at h
    by_cases hs : seq k
    · rw [if_pos hs] at h
      simp only [List.mem_append] at h
      rcases h with h | h
      · exact loopBody_sleeps env k ms h
      · exact ih (k + 1) ms h
    · rw [if_neg hs] at h
      simp at h

theorem runLoop_no_delete (env : MainEnv) (seq : Nat → Bool) :
    ∀ fuel k, (runLoop env seq fuel k).1.countP isDeleteClientAct = 0 := by
  intro fuel
  induction fuel with
  | zero => intro k; rfl
  | succ fuel ih =>
    intro k
    by_cases hs : seq k <;>
      simp [runLoop, hs, List.countP_append, ih (k + 1), (loopBody_counts env k).2.1]

theorem runLoop_allFail (env : MainEnv) (seq : Nat → Bool)
    (hfail : ∀ j, env.connectResult j ≠ UA_STATUSCODE_GOOD)
    (hrun : ∀ j, seq j = true) :
    ∀ fuel k, (runLoop env seq fuel k).2 = false ∧
      (runLoop env seq fuel k).1.countP isConnectAct = fuel := by
  intro fuel
  induction fuel with
  | zero => intro k; exact ⟨rfl, rfl⟩
  | succ fuel ih =>
    intro k
    constructor <;>
      simp [runLoop, hrun k, List.countP_append, (ih (k + 1)).1, (ih (k + 1)).2,
        (loopBody_counts env k).1, Nat.add_comm]

/-- C4: in every loop iteration whose connect fails, the loop emits exactly
the connect, the error report and a fixed 1000 ms sleep, and never calls
iterate in that iteration; every backoff sleep of a run is exactly 1000 ms
(no growth), and under an always-failing connect with the running flag held
true the loop calls connect once per iteration, never exits for any amount of
fuel, and the program never reaches its exit status. -/
theorem connect_failure_backoff (env : MainEnv) (seq : Nat → Bool) (fuel k : Nat) :
    (env.connectResult k ≠ UA_STATUSCODE_GOOD →
      loopBody env k =
        [Action.connectTo endpointUrl, Action.log LogEvent.notConnectedRetrying,
          Action.sleepMs 1000] ∧
      (loopBody env k).countP isRunIterateAct = 0) ∧
    (∀ ms, Action.sleepMs ms ∈ (runLoop env seq fuel k).1 → ms = 1000) ∧
    ((∀ j, env.connectResult j ≠ UA_STATUSCODE_GOOD) → (∀ j, seq j = true) →
      (runLoop env seq fuel k).2 = false ∧
      (runLoop env seq fuel k).1.countP isConnectAct = fuel ∧
      (mainRun env seq fuel).2 = none) := by
  refine ⟨fun hbad => ⟨?_, ?_⟩, runLoop_sleeps env seq fuel k, fun hfail hrun => ?_⟩
  · rw [loopBody, if_pos hbad]
  · rw [loopBody, if_pos hbad]
    rfl
  · refine ⟨(runLoop_allFail env seq hfail hrun fuel k).1,
      (runLoop_allFail env seq hfail hrun fuel k).2, ?_⟩
    rw [mainRun, if_neg]
    rw [(runLoop_allFail env seq hfail hrun fuel 0).1]
    simp

/-- Environment whose connect always fails with the generic bad status. -/
def failEnv : MainEnv := { connectResult := fun _ => 2147483648 }

/-- Running flag that is true at the first loop-top read and false from the
second on, as after one stop signal. -/
def stopSeq : Nat → Bool := fun k => k == 0

theorem connect_failure_backoff_witness :
    loopBody failEnv 0 =
      [Action.connectTo endpointUrl, Action.log LogEvent.notConnectedRetrying,
        Action.sleepMs 1000] ∧
    (runLoop failEnv (fun _ => true) 2 0).2 = false ∧
    (runLoop failEnv (fun _ => true) 2 0).1.countP isConnectAct = 2 ∧
    (mainRun failEnv (fun _ => true) 2).2 = none := by
  have h := connect_failure_backoff failEnv (fun _ => true) 2 0
  have hfail : ∀ j, failEnv.connectResult j ≠ UA_STATUSCODE_GOOD := by
    intro j
    show (2147483648 : Nat) ≠ 0
    decide
  have hrun : ∀ j, (fun _ : Nat => true) j = true := fun j => rfl
  exact ⟨(h.1 (hfail 0)).1, (h.2.2 hfail hrun).1, (h.2.2 hfail hrun).2.1,
    (h.2.2 hfail hrun).2.2⟩

/-- C5: the running flag is consulted only at the top of the loop: once it
reads false the loop performs nothing further and exits at once; if it drops
between two reads, only the already-started iteration (at most one 1000 ms
sleep and one 1000 ms iterate) completes before exit; and whenever the loop
exits, the client is released exactly once and the process returns
EXIT_SUCCESS. -/
theorem stop_flag_clean_shutdown (env : MainEnv) (seq : Nat → Bool) (fuel k : Nat) :
    (seq k = false → runLoop env seq (fuel + 1) k = ([], true)) ∧
    (seq k = true → seq (k + 1) = false →
      runLoop env seq (fuel + 2) k = (loopBody env k, true) ∧
      (loopBody env k).countP isSleepAct ≤ 1 ∧
      (loopBody env k).countP isRunIterateAct ≤ 1) ∧
    ((runLoop env seq fuel 0).2 = true →
      (mainRun env seq fuel).1.countP isDeleteClientAct = 1 ∧
      (mainRun env seq fuel).2 = some EXIT_SUCCESS) := by
  refine ⟨fun h => by simp [runLoop, h], fun h1 h2 => ⟨?_, (loopBody_counts env k).2.2.1,
    (loopBody_counts env k).2.2.2⟩, fun hdone => ⟨?_, ?_⟩⟩
  · simp [runLoop, h1, h2]
  · rw [mainRun, if_pos hdone, List.countP_append, runLoop_no_delete env seq fuel 0]
    rfl
  · rw [mainRun, if_pos hdone]

theorem stop_flag_clean_shutdown_witness :
    runLoop failEnv stopSeq 3 0 = (loopBody failEnv 0, true) ∧
    (mainRun failEnv stopSeq 2).1.countP isDeleteClientAct = 1 ∧
    (mainRun failEnv stopSeq 2).2 = some EXIT_SUCCESS := by
  refine ⟨((stop_flag_clean_shutdown failEnv stopSeq 1 0).2.1 (by decide) (by decide)).1, ?_, ?_⟩
  · exact ((stop_flag_clean_shutdown failEnv stopSeq 2 0).2.2 (by decide)).1
  · exact ((stop_flag_clean_shutdown failEnv stopSeq 2 0).2.2 (by decide)).2

/-- The stop-signal handler `stopHandler` (source lines 26-29): logs the
signal and clears the running flag. -/
def stopHandler (s : ProgState) (sign : Int) : ProgState × List LogEvent :=
  ({ s with running := false }, [LogEvent.receivedCtrlC])

/-- The example's subscription-deletion callback `deleteSubscriptionCallback`
(source lines 52-56): it only logs the deleted id. -/
def deleteSubscriptionCallback (s : ProgState) (subscriptionId : Nat) :
    ProgState × List LogEvent :=
  (s, [LogEvent.subscriptionDeleted subscriptionId])

/-- A locally-held monitored item (clientHandle, node, server-assigned id). -/
structure MonitoredItem where
  clientHandle : Nat
  monitoredItemId : Nat
  nodeId : UA_NodeId
  deriving DecidableEq

/-- Modelled from the spec: the client-side subscription bookkeeping held by
the library (not under `src/`) — the id of the one held subscription, its
monitored items, and the correlation-registry entries (registered client
handles). -/
structure SubscriptionState where
  heldSubscriptionId : Option Nat
  monitoredItems : List MonitoredItem
  registry : List Nat
  deriving DecidableEq

/-- The example's inactivity callback `subscriptionInactivityCallback`
(source lines 58-61): it only logs the subscription id; neither the globals
nor the subscription state change. -/
def subscriptionInactivityCallback (s : ProgState) (sub : SubscriptionState)
    (subId : Nat) : (ProgState × SubscriptionState) × List LogEvent :=
  ((s, sub), [LogEvent.inactivityForSubscription subId])

/-- Modelled from the spec: the library-side onSubscriptionDeleted handling
(not under `src/`) — if the reported id matches the held subscription, all
monitored items and registry entries are discarded and the example's
deleteSubscriptionCallback is invoked; mismatched ids are ignored as stale. -/
def onSubscriptionDeleted (s : ProgState) (sub : SubscriptionState)
    (subscriptionId : Nat) : (ProgState × SubscriptionState) × List LogEvent :=
  if sub.heldSubscriptionId = some subscriptionId then
    (((deleteSubscriptionCallback s subscriptionId).1,
      { heldSubscriptionId := none, monitoredItems := [], registry := [] }),
      (deleteSubscriptionCallback s subscriptionId).2)
  else ((s, sub), [])

theorem onSubscriptionDeleted_progState (s : ProgState) (sub : SubscriptionState)
    (subscriptionId : Nat) :
    ((onSubscriptionDeleted s sub subscriptionId).1).1 = s := by
  by_cases h : sub.heldSubscriptionId = some subscriptionId <;>
    simp [onSubscriptionDeleted, h, deleteSubscriptionCallback]

/-- C7: when the reported subscription id matches the held subscription, all
monitored items and all correlation-registry entries are discarded (the local
monitored-item and correlation state is empty afterwards) and the example's
deletion callback logs the id; with a mismatched id nothing changes at all. -/
theorem subscription_deletion_discards_state (s : ProgState) (sub : SubscriptionState)
    (subscriptionId : Nat) :
    (sub.heldSubscriptionId = some subscriptionId →
      ((onSubscriptionDeleted s sub subscriptionId).1).2.monitoredItems = [] ∧
      ((onSubscriptionDeleted s sub subscriptionId).1).2.registry = [] ∧
      ((onSubscriptionDeleted s sub subscriptionId).1).1 = s ∧
      (onSubscriptionDeleted s sub subscriptionId).2 =
        [LogEvent.subscriptionDeleted subscriptionId]) ∧
    (sub.heldSubscriptionId ≠ some subscriptionId →
      onSubscriptionDeleted s sub subscriptionId = ((s, sub), [])) := by
  constructor <;> intro h <;>
    simp [onSubscriptionDeleted, h, deleteSubscriptionCallback]

/-- Subscription state with one live monitored item and one registry entry,
used in the witnesses. -/
def demoSub : SubscriptionState :=
  { heldSubscriptionId := some 5
    monitoredItems := [{ clientHandle := 42, monitoredItemId := 3, nodeId := currentTimeNode }]
    registry := [42] }

theorem subscription_deletion_discards_state_witness :
    (((onSubscriptionDeleted initialProgState demoSub 5).1).2.monitoredItems = [] ∧
      ((onSubscriptionDeleted initialProgState demoSub 5).1).2.registry = []) ∧
    onSubscriptionDeleted initialProgState demoSub 6 = ((initialProgState, demoSub), []) := by
  have h5 := (subscription_deletion_discards_state initialProgState demoSub 5).1 (by decide)
  have h6 := (subscription_deletion_discards_state initialProgState demoSub 6).2 (by decide)
  exact ⟨⟨h5.1, h5.2.1⟩, h6⟩

/-- The state-mutating entry points of the program: the stop-signal handler
and the four registered client callbacks, each with its call arguments. -/
inductive ProgramOp where
  | stopSignal (sign : Int)
  | dataChangeEvent (subId : Nat) (n : UA_DataChangeNotification)
  | subscriptionDeletedEvent (sub : SubscriptionState) (subscriptionId : Nat)
  | inactivityEvent (sub : SubscriptionState) (subId : Nat)
  | stateEvent (lib : LibOracle) (ch : UA_SecureChannelState) (ss : UA_SessionState)
      (rs : UA_StatusCode)

/-- Effect of one entry point on the globals. -/
def applyOp (op : ProgramOp) (s : ProgState) : ProgState :=
  match op with
  | ProgramOp.stopSignal sign => (stopHandler s sign).1
  | ProgramOp.dataChangeEvent subId n => (handler_currentTimeChanged s subId n).1
  | ProgramOp.subscriptionDeletedEvent sub i => ((onSubscriptionDeleted s sub i).1).1
  | ProgramOp.inactivityEvent sub subId => ((subscriptionInactivityCallback s sub subId).1).1
  | ProgramOp.stateEvent lib ch ss rs => (stateCallback s lib ch ss rs).1

/-- Recogniser for the stop-signal entry point. -/
def isStopOp : ProgramOp → Bool
  | ProgramOp.stopSignal _ => true
  | _ => false

/-- C9: the running flag starts out true, the stop-signal handler clears it,
once false it stays false under every entry point of the program, and no
entry point other than the stop-signal handler ever changes it — in
particular nothing ever sets it back to true. -/
theorem running_set_false_once_never_reset (op : ProgramOp) (s : ProgState) (sign : Int) :
    initialProgState.running = true ∧
    ((stopHandler s sign).1).running = false ∧
    (s.running = false → (applyOp op s).running = false) ∧
    (isStopOp op = false → (applyOp op s).running = s.running) := by
  refine ⟨rfl, rfl, ?_, ?_⟩
  · intro h
    cases op <;>
      simp [applyOp, stopHandler, handler_currentTimeChanged,
        onSubscriptionDeleted_progState, subscriptionInactivityCallback, stateCallback, h]
  · intro h
    cases op
    case stopSignal sign2 => simp [isStopOp] at h
    all_goals
      simp [applyOp, handler_currentTimeChanged, onSubscriptionDeleted_progState,
        subscriptionInactivityCallback, stateCallback]

theorem running_set_false_once_never_reset_witness :
    (applyOp (ProgramOp.stopSignal 2) { running := false, currentTimeClientHandle := 42 }).running =
      false ∧
    (applyOp (ProgramOp.dataChangeEvent 1 witnessBatch) initialProgState).running =
      initialProgState.running := by
  refine ⟨?_, ?_⟩
  · exact (running_set_false_once_never_reset (ProgramOp.stopSignal 2)
      { running := false, currentTimeClientHandle := 42 } 0).2.2.1 rfl
  · exact (running_set_false_once_never_reset (ProgramOp.dataChangeEvent 1 witnessBatch)
      initialProgState 0).2.2.2 rfl

/-- C10: the inactivity callback leaves every piece of program state — the
globals (running flag and registered handle) and the whole subscription and
monitored-item state — exactly as it was, and only reports the condition for
the subscription id it was invoked with. -/
theorem inactivity_callback_changes_nothing (s : ProgState) (sub : SubscriptionState)
    (subId : Nat) :
    (subscriptionInactivityCallback s sub subId).1 = (s, sub) ∧
    (subscriptionInactivityCallback s sub subId).2 =
      [LogEvent.inactivityForSubscription subId] :=
  ⟨rfl, rfl⟩

end UAClient
